import Mathlib

/-!
# OpenLabs API — verification of the range-lifecycle pipeline

Shallow embedding of the parts of the OpenLabs control plane that the
frozen claims are about:

* the blueprint/template schema validators (`src/app/schemas/...`),
* the AWS stack materializer (`src/app/core/cdktf/stacks/aws_stack.py`),
* the provisioner driver (`src/app/core/cdktf/aws/aws.py`),
* the worker functions (`src/app/core/worker/ranges.py`, `settings.py`),
* the `/api/v1/ranges` endpoints (`src/app/api/v1/ranges.py`).

Python values are embedded as plain Lean data: machine-independent
`Nat` for ids and addresses, `String` for text, `Option` for `None`,
`Bool` for truthiness where the source branches on it.  External
effects (database reads, queue calls, terraform subprocesses,
decryption) are passed in explicitly as oracle inputs so that each
endpoint / worker function is a pure function of its request plus its
environment.
-/

namespace OpenLabs

/-! ## IPv4 networks (Python `ipaddress.IPv4Network`)

A network is a 32-bit base address together with a prefix length.
`netAddr`/`broadcast` mask the address exactly the way
`IPv4Network.network_address` / `.broadcast_address` do. -/

structure IPv4Net where
  addr : Nat
  prefix_len : Nat
  deriving DecidableEq, Repr

namespace IPv4Net

/-- Number of host addresses in the network block: `2 ^ (32 - prefixlen)`. -/
def blockSize (n : IPv4Net) : Nat := 2 ^ (32 - n.prefix_len)

/-- `network_address`: the base address with host bits cleared. -/
def netAddr (n : IPv4Net) : Nat := n.addr / n.blockSize * n.blockSize

/-- `broadcast_address`: the last address of the block. -/
def broadcast (n : IPv4Net) : Nat := n.netAddr + n.blockSize - 1

/-- Python `a.subnet_of(b)` (`ipaddress._is_subnet_of`):
`b.network_address <= a.network_address and
 a.broadcast_address <= b.broadcast_address`.  Note that this is
*non-strict*: a network is a `subnet_of` itself. -/
def subnet_of (a b : IPv4Net) : Prop :=
  b.netAddr ≤ a.netAddr ∧ a.broadcast ≤ b.broadcast

instance (a b : IPv4Net) : Decidable (subnet_of a b) := by
  unfold subnet_of; infer_instance

/-- Proper containment of network blocks: contained but not the same
block of addresses.  (The claims' "strictly contained / proper
subset" reading.) -/
def properSubnetOf (a b : IPv4Net) : Prop :=
  subnet_of a b ∧ ¬ (a.netAddr = b.netAddr ∧ a.broadcast = b.broadcast)

instance (a b : IPv4Net) : Decidable (properSubnetOf a b) := by
  unfold properSubnetOf; infer_instance

end IPv4Net

/-! ## Blueprint / template schema (`template_*_schema.py`) -/

/-- `TemplateHostBaseSchema` — only the fields the stack builder uses. -/
structure TemplateHost where
  hostname : String
  os : String
  spec : String
  deriving DecidableEq, Repr

/-- `TemplateSubnetBaseSchema`. -/
structure TemplateSubnet where
  name : String
  cidr : IPv4Net
  hosts : List TemplateHost
  deriving DecidableEq, Repr

/-- `TemplateVPCBaseSchema`. -/
structure TemplateVPC where
  name : String
  cidr : IPv4Net
  subnets : List TemplateSubnet
  deriving DecidableEq, Repr

/-- `TemplateRangeBaseSchema` — only the fields the stack builder uses. -/
structure TemplateRange where
  name : String
  vpcs : List TemplateVPC
  deriving DecidableEq, Repr

/-- `TemplateVPCBaseSchema.validate_subnets_contained`
(`template_vpc_schema.py`, lines 40-69): the validator walks the
subnet list and raises a `ValueError` on the first subnet whose CIDR
is not `subnet_of` the VPC CIDR.  `true` = validation passes (no
raise).  The `info.data.get("cidr")` guard of the source concerns a
VPC whose own `cidr` field already failed validation and cannot arise
for a well-typed `TemplateVPC`, which always carries a CIDR. -/
def validate_subnets_contained (vpc : TemplateVPC) : Bool :=
  vpc.subnets.all (fun s => decide (IPv4Net.subnet_of s.cidr vpc.cidr))

/-- Convenience: the dotted-quad constructor used for concrete test
networks, `ipv4 a b c d p` = `a.b.c.d/p`. -/
def ipv4 (a b c d p : Nat) : IPv4Net :=
  { addr := ((a * 256 + b) * 256 + c) * 256 + d, prefix_len := p }

/-! ## AWS stack materializer (`aws_stack.py`, `AWSStack.build_resources`)

`build_resources` is a straight-line constructor of terraform
resources.  The embedding records the resources the claims are
about — the jumpbox key pair and, per blueprint VPC, the shared
security group with its three rules — exactly as the source creates
them.  Resource attributes that matter to the claims (names, CIDR
blocks, ports, protocols, the key material) are carried verbatim. -/

structure SGRule where
  ruleName : String
  direction : String
  fromPort : Nat
  toPort : Nat
  protocol : String
  cidrBlocks : List String
  deriving DecidableEq, Repr

structure KeyPairRes where
  keyName : String
  publicKey : String
  deriving DecidableEq, Repr

/-- The literal `public_key=` argument of the jumpbox `KeyPair`
(`aws_stack.py` line 64).  The source marks it
`NOTE: Hardcoded key, will need a way to dynamically add a key to
user instances`. -/
def hardcodedJumpboxPublicKey : String :=
  "ssh-ed25519 AAAAC3NzaC1lZDI1NTE5AAAAIH8URIMqVKb6EAK4O+E+9g8df1uvcOfpvPFl7sQrX7KM email@example.com"

/-- The jumpbox `KeyPair` resource (`aws_stack.py` lines 60-66). -/
def buildJumpboxKeyPair (range_name : String) : KeyPairRes :=
  { keyName := range_name ++ "-cdktf-key"
    publicKey := hardcodedJumpboxPublicKey }

/-- The three `SecurityGroupRule`s attached to the per-VPC shared
security group `SharedPrivateSG` (`aws_stack.py` lines 277-308):
an ingress rule from the jumpbox public subnet, an ingress rule the
source comments as internal-traffic but whose `cidr_blocks` is
`["0.0.0.0/0"]`, and an egress-any rule. -/
def privateVpcSgRules (range_name vpc_name : String) : List SGRule :=
  [ { ruleName := range_name ++ "-" ++ vpc_name ++ "-RangeAllowAllTrafficFromJumpBox-Rule"
      direction := "ingress"
      fromPort := 0
      toPort := 0
      protocol := "-1"
      cidrBlocks := ["10.255.99.0/24"] }
  , { ruleName := range_name ++ "-" ++ vpc_name ++ "-RangeAllowInternalTraffic-Rule"
      direction := "ingress"
      fromPort := 0
      toPort := 0
      protocol := "-1"
      cidrBlocks := ["0.0.0.0/0"] }
  , { ruleName := range_name ++ "-" ++ vpc_name ++ "-RangeAllowPrivateOutbound-Rule"
      direction := "egress"
      fromPort := 0
      toPort := 0
      protocol := "-1"
      cidrBlocks := ["0.0.0.0/0"] } ]

/-- One materialized blueprint VPC: the cloud VPC's CIDR block and the
shared security group rules created for it inside the
`for vpc in template_range.vpcs` loop of `build_resources`. -/
structure MaterializedVpc where
  vpcName : String
  cidrBlock : String
  sgRules : List SGRule
  deriving DecidableEq, Repr

/-- Text form of an `IPv4Net`, as `str(vpc.cidr)` produces it. -/
def IPv4Net.text (n : IPv4Net) : String :=
  let a := n.addr
  toString (a / 16777216) ++ "." ++ toString (a / 65536 % 256) ++ "." ++
    toString (a / 256 % 256) ++ "." ++ toString (a % 256) ++ "/" ++
    toString n.prefix_len

/-- The outcome of `AWSStack.build_resources` restricted to the
resources the claims inspect: the key pair, the fixed jumpbox
networks, and the per-blueprint-VPC cloud VPC + shared SG rules.
The jumpbox CIDRs are the literals of `aws_stack.py`
(lines 71, 92, 185). -/
structure AwsStackResources where
  providerRegion : String
  keyPair : KeyPairRes
  jumpboxVpcCidr : String
  jumpboxPublicSubnetCidr : String
  jumpboxPrivateSubnetCidr : String
  vpcs : List MaterializedVpc
  deriving DecidableEq, Repr

/-- `AWSStack.build_resources` (`aws_stack.py` lines 32-406),
projected onto the claim-relevant resources.  The source signature is
`build_resources(template_range, region, cdktf_id, range_name)`;
`region` only selects the `AwsProvider` region string and `cdktf_id`
is not read by the body, and neither influences any resource below
besides the provider region. -/
def build_resources (template_range : TemplateRange) (region : String)
    (cdktf_id : String) (range_name : String) : AwsStackResources :=
  { providerRegion := region
    keyPair := buildJumpboxKeyPair range_name
    jumpboxVpcCidr := "10.255.0.0/16"
    jumpboxPublicSubnetCidr := "10.255.99.0/24"
    jumpboxPrivateSubnetCidr := "10.255.98.0/24"
    vpcs := template_range.vpcs.map (fun vpc =>
      { vpcName := vpc.name
        cidrBlock := vpc.cidr.text
        sgRules := privateVpcSgRules range_name vpc.name }) }

/-! ## Provisioner driver (`aws/aws.py`, `deploy_infrastructure`)

The filesystem is a finite map path ↦ file contents plus the set of
existing directories.  The two terraform subprocesses are external:
their behaviour on this run (exit status of `init` and `apply`, and
the state file `apply` emits) is an oracle input.  `check=True` in
the source turns a non-zero exit status into a raised
`CalledProcessError`, embedded as `none`. -/

structure Fs where
  files : List (String × String)
  dirs : List String
  deriving DecidableEq, Repr

def Fs.write (fs : Fs) (path content : String) : Fs :=
  { fs with files := (path, content) :: fs.files.filter (fun p => p.1 ≠ path) }

def Fs.read (fs : Fs) (path : String) : Option String :=
  (fs.files.find? (fun p => p.1 = path)).map (·.2)

def Fs.dirExists (fs : Fs) (path : String) : Bool :=
  fs.dirs.contains path

/-- Behaviour of the external `terraform` binary on this run. -/
structure TerraformRun where
  initOk : Bool
  applyOk : Bool
  emittedState : String
  deriving DecidableEq, Repr

/-- `Path(f"{stack_dir}/stacks/{stack_name}")` — the working (synth
output) directory the driver `chdir`s into. -/
def synthOutputDir (stack_dir stack_name : String) : String :=
  stack_dir ++ "/stacks/" ++ stack_name

/-- The state file `terraform apply` emits, read back by the driver:
`terraform.<stack_name>.tfstate` inside the synth output directory. -/
def stateFilePath (stack_dir stack_name : String) : String :=
  synthOutputDir stack_dir stack_name ++ "/terraform." ++ stack_name ++ ".tfstate"

/-- `deploy_infrastructure` (`aws/aws.py` lines 12-56).  Steps of the
source: `os.chdir` into the synth output dir (raises if the directory
does not exist), `terraform init` then `terraform apply
--auto-approve` with `check=True`, read `terraform.<stack>.tfstate`
into a string, `os.chdir` back to the initial directory, return the
string.  The `shutil.rmtree(stack_dir)` cleanup is commented out in
the source ("do not delete for now"), so no path is removed.
Returns the state-file string plus the filesystem after the run, or
`none` when a step raises. -/
def deploy_infrastructure (fs : Fs) (tf : TerraformRun)
    (stack_dir stack_name : String) : Option (String × Fs) :=
  if ¬ fs.dirExists (synthOutputDir stack_dir stack_name) then
    none
  else if ¬ tf.initOk then
    none
  else if ¬ tf.applyOk then
    none
  else
    let fsAfterApply := fs.write (stateFilePath stack_dir stack_name) tf.emittedState
    match fsAfterApply.read (stateFilePath stack_dir stack_name) with
    | none => none
    | some content => some (content, fsAfterApply)

/-! ## Worker (`core/worker/ranges.py`, `core/worker/settings.py`)

The worker's database of deployed ranges is a list of rows.  Calls
into terraform / the template store are oracle inputs where the
worker consults them. -/

/-- A Deployed Range row as the worker's database stores it. -/
structure DeployedRangeRow where
  rangeId : Nat
  name : String
  stateFile : String
  deriving DecidableEq, Repr

/-- `WorkerSettings.functions` (`core/worker/settings.py` line 16):
the only function registered with the ARQ worker is `deploy_range`.
`destroy_range` is not in the list, so the queue cannot dispatch a
`destroy_range` job to any worker code. -/
def workerFunctions : List String := ["deploy_range"]

/-- Worker `destroy_range` (`core/worker/ranges.py` lines 119-127).
The entire body of the source function is `pass`: it performs no
database fetch, no state rehydration, no provisioner destroy, and no
row deletion, and returns `None`.  The embedding therefore returns
the database unchanged together with `none` for the annotated
`MessageSchema` result. -/
def worker_destroy_range (db : List DeployedRangeRow) (range_id : Nat)
    (user_id : Nat) (is_admin : Bool) : List DeployedRangeRow × Option String :=
  (db, none)

/-- Worker `deploy_range`, id-creation step (`core/worker/ranges.py`
lines 71-73).  The source computes `range_id = uuid.uuid4()`: one
fresh draw from the ambient randomness source, ignoring every job
argument and in particular the queue job id.  The embedding makes the
randomness explicit: `rngDraw` is the value `uuid.uuid4()` returns on
this execution, and the computed deployed-range id is exactly that
draw. -/
def worker_deploy_range_id (queue_job_id : String) (rngDraw : Nat) : Nat :=
  rngDraw

/-! ## `/api/v1/ranges` endpoints (`api/v1/ranges.py`)

Shared pieces first: Python truthiness of the cookie value,
`base64.b64decode`, the provider enum, the secret bundle, and the
CRUD lookups the endpoints call. -/

/-- Python truthiness of the `enc_key` cookie parameter
(`str | None`): `not enc_key` is true for a missing cookie and for an
empty string. -/
def pyFalsy : Option String → Bool
  | none => true
  | some s => s == ""

/-- Value of a standard-base64-alphabet character. -/
def b64CharVal (c : Char) : Option Nat :=
  if 'A' ≤ c ∧ c ≤ 'Z' then some (c.toNat - 'A'.toNat)
  else if 'a' ≤ c ∧ c ≤ 'z' then some (c.toNat - 'a'.toNat + 26)
  else if '0' ≤ c ∧ c ≤ '9' then some (c.toNat - '0'.toNat + 52)
  else if c = '+' then some 62
  else if c = '/' then some 63
  else none

/-- Regroup base64 sextets into bytes (4 sextets ↦ 3 bytes, with the
usual truncation for a final partial group). -/
def bytesOfSextets : List Nat → List Nat
  | a :: b :: c :: d :: rest =>
      (a * 4 + b / 16) :: (b % 16 * 16 + c / 4) :: (c % 4 * 64 + d) ::
        bytesOfSextets rest
  | [a, b] => [a * 4 + b / 16]
  | [a, b, c] => [a * 4 + b / 16, b % 16 * 16 + c / 4]
  | _ => []

/-- `base64.b64decode` with default `validate=False`, as the endpoint
calls it: characters outside the alphabet (and outside padding) are
discarded; if the remaining length is not a multiple of four the call
raises `binascii.Error` (embedded as `none`); otherwise the data
characters decode to bytes. -/
def pyB64Decode (s : String) : Option (List Nat) :=
  let kept := s.data.filter (fun c => (b64CharVal c).isSome || c = '=')
  if kept.length % 4 = 0 then
    some (bytesOfSextets (kept.filterMap b64CharVal))
  else
    none

/-- Modelled from the spec: `OpenLabsProvider`
(`src/app/enums/providers.py` is not under `src/`).  The spec's data
model gives `provider ∈ {AWS, AZURE, …}` and its scenarios render the
provider as the lowercase value `"aws"`. -/
inductive OpenLabsProvider
  | aws
  | azure
  deriving DecidableEq, Repr

/-- The enum member's `.value`; per the spec the lowercase provider
name. -/
def OpenLabsProvider.value : OpenLabsProvider → String
  | .aws => "aws"
  | .azure => "azure"

/-- Modelled from the spec: how the provider member renders inside the
endpoint's f-string detail (`f"No credentials found for provider:
{blueprint_range.provider}"`).  The enum class is not under `src/`;
the spec's scenario 3 fixes the rendered detail to
`"No credentials found for provider: aws"`, i.e. the member renders
as its lowercase value. -/
def OpenLabsProvider.interpolate (p : OpenLabsProvider) : String := p.value

/-- `SecretSchema` — the decrypted per-provider credential bundle
(field list as exercised by `tests/unit/api/v1/test_ranges.py`). -/
structure SecretBundle where
  awsAccessKey : Option String
  awsSecretKey : Option String
  azureClientId : Option String
  azureClientSecret : Option String
  azureTenantId : Option String
  azureSubscriptionId : Option String
  deriving DecidableEq, Repr

/-- Modelled from the spec: `has_secrets()` of the range object built
by `RangeFactory.create_range` (`core/cdktf/ranges/base_range.py` is
not under `src/`).  Per the spec's admission step 4, the check is
that "the bundle contains credentials for the blueprint's
provider". -/
def has_secrets (provider : OpenLabsProvider) (s : SecretBundle) : Bool :=
  match provider with
  | .aws => s.awsAccessKey.isSome && s.awsSecretKey.isSome
  | .azure =>
      s.azureClientId.isSome && s.azureClientSecret.isSome &&
        s.azureTenantId.isSome && s.azureSubscriptionId.isSome

/-- A blueprint range row as the endpoints read it. -/
structure BlueprintRangeRow where
  blueprintId : Nat
  name : String
  provider : OpenLabsProvider
  ownerId : Nat
  deriving DecidableEq, Repr

/-- A deployed range row as the endpoints read it. -/
structure DeployedRangeApiRow where
  rangeId : Nat
  name : String
  provider : OpenLabsProvider
  ownerId : Nat
  description : String
  stateFile : Option String
  deriving DecidableEq, Repr

/-- The authenticated caller (`UserModel` fields used by the
endpoints). -/
structure ApiUser where
  userId : Nat
  isAdmin : Bool
  deriving DecidableEq, Repr

/-- Modelled from the spec: `crud_ranges.get_blueprint_range`
(the CRUD module is not under `src/`; only its caller is).  Per the
spec's Blueprint Store contract and error taxonomy, the lookup
returns the row with the requested id when the caller owns it or is
admin, and `None` otherwise. -/
def get_blueprint_range (rows : List BlueprintRangeRow) (blueprint_id : Nat)
    (user_id : Nat) (is_admin : Bool) : Option BlueprintRangeRow :=
  rows.find? (fun r =>
    r.blueprintId == blueprint_id && (is_admin || r.ownerId == user_id))

/-- Modelled from the spec: `crud_ranges.get_deployed_range` (the CRUD
module is not under `src/`).  Same contract as the blueprint lookup:
row with the requested id, owner check bypassed when `is_admin`.  The
Python signature must default `is_admin` (the delete endpoint calls
`get_deployed_range(db, range_id, user_id=current_user.id)` without
it), and per the spec's "owner mismatch and not admin ⇒ 404" the
default is no-admin, i.e. `false`: a default of `true` would bypass
the owner check for every caller, contradicting the repository's own
`test_destroy_without_valid_range_owner`. -/
def get_deployed_range (rows : List DeployedRangeApiRow) (range_id : Nat)
    (user_id : Nat) (is_admin : Bool) : Option DeployedRangeApiRow :=
  rows.find? (fun r =>
    r.rangeId == range_id && (is_admin || r.ownerId == user_id))

/-- `JobSubmissionDetail` values (enum module not under `src/`;
names from the spec's `DB_SAVE_SUCCESS` / `DB_SAVE_FAILURE` flags). -/
inductive JobSubmissionDetail
  | dbSaveSuccess
  | dbSaveFailure
  deriving DecidableEq, Repr

def JobSubmissionDetail.value : JobSubmissionDetail → String
  | .dbSaveSuccess => "DB_SAVE_SUCCESS"
  | .dbSaveFailure => "DB_SAVE_FAILURE"

/-- External effects consulted by one endpoint invocation, in call
order: the result of `get_decrypted_secrets`, the queue id returned
by `enqueue_arq_job` (`None` on enqueue failure), and whether the
`add_job` database insert succeeds. -/
structure EndpointEnv where
  decryptedSecrets : Option SecretBundle
  enqueueResult : Option String
  dbInsertOk : Bool
  deriving DecidableEq, Repr

/-- Outcome of an endpoint invocation: HTTP status, the `detail`
string of the JSON body, the `arq_job_id` carried by a 202 response,
and whether control reached the `enqueue_arq_job` call. -/
structure EndpointResult where
  httpStatus : Nat
  detail : String
  arqJobId : Option String
  enqueueCalled : Bool
  deriving DecidableEq, Repr

/-- An error response raised before the enqueue step. -/
def earlyError (code : Nat) (d : String) : EndpointResult :=
  { httpStatus := code, detail := d, arqJobId := none, enqueueCalled := false }

/-- Shared tail of both endpoints (`ranges.py` lines 278-313 and
418-452): enqueue the job, 500 on enqueue failure, then insert the
Job Record — an insert failure is logged only, and the response is
202 with the queue id and the `DB_SAVE_FAILURE` flag. -/
def enqueueAndRecord (env : EndpointEnv) : EndpointResult :=
  match env.enqueueResult with
  | none =>
      { httpStatus := 500, detail := "Failed queue up job! Try again later."
        arqJobId := none, enqueueCalled := true }
  | some jobId =>
      let d := if env.dbInsertOk then JobSubmissionDetail.dbSaveSuccess
               else JobSubmissionDetail.dbSaveFailure
      { httpStatus := 202, detail := d.value
        arqJobId := some jobId, enqueueCalled := true }

/-- `deploy_range_from_blueprint_endpoint` (`api/v1/ranges.py` lines
175-313).  Steps in source order: falsy `enc_key` ⇒ 401; base64
decode failure ⇒ 400; blueprint lookup failure ⇒ 404; decryption
failure ⇒ 400; `has_secrets()` false ⇒ 422 naming the provider; then
enqueue + Job Record insert.  (The 404/400 detail strings elide the
apostrophe of the source text.) -/
def deploy_range_from_blueprint_endpoint
    (blueprints : List BlueprintRangeRow) (env : EndpointEnv)
    (current_user : ApiUser) (enc_key : Option String)
    (blueprint_id : Nat) : EndpointResult :=
  if pyFalsy enc_key then
    earlyError 401 "Encryption key not found. Please try logging in again."
  else
    match pyB64Decode (enc_key.getD "") with
    | none => earlyError 400 "Invalid encryption key. Please try logging in again."
    | some _master_key =>
      match get_blueprint_range blueprints blueprint_id
          current_user.userId current_user.isAdmin with
      | none =>
          earlyError 404 ("Range blueprint with ID: " ++ toString blueprint_id ++
            " not found or you do not have access to it!")
      | some blueprint_range =>
        match env.decryptedSecrets with
        | none =>
            earlyError 400
              "Failed to decrypt cloud credentials. Please try logging in again."
        | some secrets =>
          if ¬ has_secrets blueprint_range.provider secrets then
            earlyError 422 ("No credentials found for provider: " ++
              blueprint_range.provider.interpolate)
          else
            enqueueAndRecord env

/-- `delete_range_endpoint` (`api/v1/ranges.py` lines 316-452).  Same
admission order, except the range lookup is
`get_deployed_range(db, range_id, user_id=current_user.id)` — the
`is_admin` argument is *not* forwarded (line 364), so the CRUD
default `false` applies for every caller, admin or not. -/
def delete_range_endpoint
    (deployed : List DeployedRangeApiRow) (env : EndpointEnv)
    (current_user : ApiUser) (enc_key : Option String)
    (range_id : Nat) : EndpointResult :=
  if pyFalsy enc_key then
    earlyError 401 "Encryption key not found. Please try logging in again."
  else
    match pyB64Decode (enc_key.getD "") with
    | none => earlyError 400 "Invalid encryption key. Please try logging in again."
    | some _master_key =>
      match get_deployed_range deployed range_id current_user.userId false with
      | none =>
          earlyError 404 ("Range with ID: " ++ toString range_id ++
            " not found or you do not have access to it!")
      | some deployed_range =>
        match env.decryptedSecrets with
        | none =>
            earlyError 400
              "Failed to decrypt cloud credentials. Please try logging in again."
        | some secrets =>
          if ¬ has_secrets deployed_range.provider secrets then
            earlyError 422 ("No credentials found for provider: " ++
              deployed_range.provider.interpolate)
          else
            enqueueAndRecord env

/-- Result of the read endpoint: status, detail, and the returned
range body on success. -/
structure GetRangeResult where
  httpStatus : Nat
  body : Option DeployedRangeApiRow
  deriving DecidableEq, Repr

/-- `get_deployed_range_endpoint` (`api/v1/ranges.py` lines 85-127):
the lookup *does* forward `current_user.is_admin` (line 105); a
missing row is a 404, otherwise the range is returned. -/
def get_deployed_range_endpoint
    (deployed : List DeployedRangeApiRow)
    (current_user : ApiUser) (range_id : Nat) : GetRangeResult :=
  match get_deployed_range deployed range_id
      current_user.userId current_user.isAdmin with
  | none => { httpStatus := 404, body := none }
  | some r => { httpStatus := 200, body := some r }

/-! ## Shared lemmas -/

/-- Reading back a path just written returns the written content. -/
theorem Fs.read_write (fs : Fs) (p c : String) :
    (fs.write p c).read p = some c := by
  simp [Fs.write, Fs.read]

/-- Writing a file does not change the set of directories. -/
theorem Fs.write_dirs (fs : Fs) (p c : String) :
    (fs.write p c).dirs = fs.dirs := rfl

/-! ## Claims -/

/-- C1: the spec's destroy pipeline — fetch the Deployed Range,
rehydrate its stored state, run the provisioner destroy, delete the
row — is what a delivered `destroy_range` job must perform.  The
worker's `destroy_range` body is `pass`: executed on a database
holding the targeted row, it leaves the database unchanged (the row
is still present), returns no message, and the function is not even
registered in `WorkerSettings.functions`, so the queue has no worker
code to dispatch a `destroy_range` job to. -/
theorem c1_worker_destroy_range_is_a_noop :
    (worker_destroy_range [⟨1, "r1", "tfstate-blob"⟩] 1 7 false).1
        = [⟨1, "r1", "tfstate-blob"⟩]
      ∧ (worker_destroy_range [⟨1, "r1", "tfstate-blob"⟩] 1 7 false).2 = none
      ∧ "destroy_range" ∉ workerFunctions := by
  refine ⟨rfl, rfl, ?_⟩
  decide

/-- C2: the worker does not derive `deployed_range_id` from the queue
job id: `range_id = uuid.uuid4()` is one fresh draw from the
randomness source per execution.  Two deliveries of the same queue
job whose random draws differ therefore compute different
deployed-range ids, refuting the deterministic-id requirement. -/
theorem c2_deployed_range_id_not_deterministic :
    worker_deploy_range_id "arq:deploy-job-1" 0
      ≠ worker_deploy_range_id "arq:deploy-job-1" 1 := by
  decide

/-- C9: evaluated on a blueprint with a single VPC `v1` (so there are
no peer private VPCs), the shared security group of `v1` carries an
ingress rule whose `cidr_blocks` is `["0.0.0.0/0"]` — all traffic
from anywhere — besides the jumpbox-subnet ingress rule and the
egress-any rule.  The claim (and the source's own comment on that
rule, "allow all internal subnets to communicate with each other")
admits ingress only from `10.255.99.0/24` and from peer private
CIDRs, which for this blueprint is the set `{10.255.99.0/24}`. -/
theorem c9_shared_sg_ingress_open_to_anywhere :
    ((build_resources ⟨"t1", [⟨"v1", ipv4 10 0 0 0 16, []⟩]⟩
        "us-east-1" "r-abc" "r").vpcs.map
          (fun v => v.sgRules.map (fun rl => (rl.direction, rl.cidrBlocks))))
      = [[("ingress", ["10.255.99.0/24"]),
          ("ingress", ["0.0.0.0/0"]),
          ("egress", ["0.0.0.0/0"])]] := by
  decide

/-- C10: for every blueprint, region, cdktf id and range name, the
jumpbox key pair materialized by `build_resources` embeds the one
hardcoded `ssh-ed25519` public key literal; in particular any two
materialized ranges share the same jumpbox public key. -/
theorem c10_jumpbox_public_key_hardcoded
    (t₁ t₂ : TemplateRange) (reg₁ reg₂ id₁ id₂ n₁ n₂ : String) :
    (build_resources t₁ reg₁ id₁ n₁).keyPair.publicKey
        = hardcodedJumpboxPublicKey
      ∧ (build_resources t₁ reg₁ id₁ n₁).keyPair.publicKey
        = (build_resources t₂ reg₂ id₂ n₂).keyPair.publicKey := by
  exact ⟨rfl, rfl⟩

/-- C3, counterexample: a successful `deploy_infrastructure` run on a
filesystem holding the synth output directory.  The claim asserts the
working directory no longer exists afterwards; the run succeeds and
the directory is still there, because the `shutil.rmtree` cleanup is
commented out in the source. -/
theorem c3_workdir_survives_counterexample :
    (deploy_infrastructure ⟨[], [synthOutputDir "/tmp/cdktf" "r1-abc"]⟩
          ⟨true, true, "STATE"⟩ "/tmp/cdktf" "r1-abc").isSome = true
      ∧ ((deploy_infrastructure ⟨[], [synthOutputDir "/tmp/cdktf" "r1-abc"]⟩
            ⟨true, true, "STATE"⟩ "/tmp/cdktf" "r1-abc").map
          (fun r => r.2.dirExists (synthOutputDir "/tmp/cdktf" "r1-abc")))
        = some true := by
  decide

/-- C3, amended: on every successful
`deploy_infrastructure(stack_dir, stack_name)` run, the returned
string equals the contents of `terraform.<stack>.tfstate` inside the
stack directory, and the working directory *still exists* afterwards
(the source returns to its initial directory and the delete is
commented out). -/
theorem c3_deploy_infrastructure_returns_state_keeps_workdir
    (fs : Fs) (tf : TerraformRun) (stack_dir stack_name content : String)
    (fs' : Fs)
    (h : deploy_infrastructure fs tf stack_dir stack_name = some (content, fs')) :
    fs'.read (stateFilePath stack_dir stack_name) = some content
      ∧ fs'.dirExists (synthOutputDir stack_dir stack_name) = true := by
  unfold deploy_infrastructure at h
  split at h
  · exact absurd h (by simp)
  · split at h
    · exact absurd h (by simp)
    · split at h
      · exact absurd h (by simp)
      · simp only [Fs.read_write, Option.some.injEq, Prod.mk.injEq] at h
        obtain ⟨hc, hfs⟩ := h
        subst hc
        subst hfs
        refine ⟨Fs.read_write _ _ _, ?_⟩
        rename_i hdir _ _
        simp only [not_not] at hdir
        simpa [Fs.dirExists, Fs.write_dirs] using hdir

/-- C3, witness for the amended theorem at a concrete run. -/
theorem c3_deploy_infrastructure_witness :
    (Fs.write ⟨[], [synthOutputDir "/tmp/cdktf" "r1-abc"]⟩
          (stateFilePath "/tmp/cdktf" "r1-abc") "STATE").read
        (stateFilePath "/tmp/cdktf" "r1-abc") = some "STATE"
      ∧ (Fs.write ⟨[], [synthOutputDir "/tmp/cdktf" "r1-abc"]⟩
            (stateFilePath "/tmp/cdktf" "r1-abc") "STATE").dirExists
          (synthOutputDir "/tmp/cdktf" "r1-abc") = true :=
  c3_deploy_infrastructure_returns_state_keeps_workdir
    ⟨[], [synthOutputDir "/tmp/cdktf" "r1-abc"]⟩ ⟨true, true, "STATE"⟩
    "/tmp/cdktf" "r1-abc" "STATE"
    (Fs.write ⟨[], [synthOutputDir "/tmp/cdktf" "r1-abc"]⟩
      (stateFilePath "/tmp/cdktf" "r1-abc") "STATE")
    (by decide)

/-- C5, counterexample: a VPC whose single subnet has exactly the
VPC's own CIDR (`10.0.0.0/16` inside `10.0.0.0/16`).  Python
`subnet_of` is non-strict, so `validate_subnets_contained` passes,
yet the subnet is not *strictly* contained in the VPC CIDR — refuting
the claim's "validates iff every subnet is a proper subset". -/
theorem c5_equal_cidr_accepted_counterexample :
    validate_subnets_contained
        ⟨"v", ipv4 10 0 0 0 16, [⟨"s", ipv4 10 0 0 0 16, []⟩]⟩ = true
      ∧ ¬ IPv4Net.properSubnetOf (ipv4 10 0 0 0 16) (ipv4 10 0 0 0 16) := by
  decide

/-- C5, amended: blueprint VPC validation enforces *non-strict* CIDR
containment: `validate_subnets_contained` succeeds iff every subnet's
CIDR is `subnet_of` the VPC's CIDR (equality allowed); any subnet
CIDR not contained in the VPC CIDR is rejected. -/
theorem c5_validate_subnets_contained_iff (vpc : TemplateVPC) :
    validate_subnets_contained vpc = true
      ↔ ∀ s ∈ vpc.subnets, IPv4Net.subnet_of s.cidr vpc.cidr := by
  simp [validate_subnets_contained, List.all_eq_true]

/-- C4, counterexample: an admin caller (id 1) and a deployed range
owned by user 2.  The read endpoint does bypass the owner check and
returns 200, but the delete endpoint — with a valid `enc_key` and
working AWS credentials — returns 404, because it never forwards the
admin flag to the range lookup.  The claim asserts the delete is
admitted (no 404) for an admin non-owner. -/
theorem c4_admin_delete_owner_check_counterexample :
    (get_deployed_range_endpoint
        [⟨5, "r", OpenLabsProvider.aws, 2, "d", some "st"⟩]
        ⟨1, true⟩ 5).httpStatus = 200
      ∧ (delete_range_endpoint
          [⟨5, "r", OpenLabsProvider.aws, 2, "d", some "st"⟩]
          ⟨some ⟨some "AK", some "SK", none, none, none, none⟩,
            some "arq-1", true⟩
          ⟨1, true⟩ (some "QUJDRA==") 5).httpStatus = 404 := by
  decide

/-- C4, amended: admin callers bypass the owner check on *read* only:
for a deployed range `r` and an admin caller `u` with
`u.userId ≠ r.ownerId`, `GET /ranges/{id}` returns the range (200),
while `DELETE /ranges/{id}` — even with a valid `enc_key` — responds
404 before anything is enqueued, because the delete endpoint does not
pass `is_admin` to `get_deployed_range`. -/
theorem c4_admin_bypass_read_not_delete
    (r : DeployedRangeApiRow) (u : ApiUser) (env : EndpointEnv) (s : String)
    (hadmin : u.isAdmin = true)
    (howner : u.userId ≠ r.ownerId)
    (hs : s ≠ "")
    (hdec : ∃ bs, pyB64Decode s = some bs) :
    (get_deployed_range_endpoint [r] u r.rangeId).httpStatus = 200
      ∧ (get_deployed_range_endpoint [r] u r.rangeId).body = some r
      ∧ (delete_range_endpoint [r] env u (some s) r.rangeId).httpStatus = 404
      ∧ (delete_range_endpoint [r] env u (some s) r.rangeId).enqueueCalled
          = false := by
  obtain ⟨bs, hbs⟩ := hdec
  have hownerb : (r.ownerId == u.userId) = false :=
    beq_eq_false_iff_ne.mpr (Ne.symm howner)
  refine ⟨?_, ?_, ?_, ?_⟩ <;>
    simp [get_deployed_range_endpoint, delete_range_endpoint,
      get_deployed_range, List.find?_cons, hadmin, hownerb, pyFalsy, hs, hbs,
      earlyError]

/-- C4, witness for the amended theorem at the counterexample's
input. -/
theorem c4_admin_bypass_witness :
    (get_deployed_range_endpoint
        [⟨5, "r", OpenLabsProvider.aws, 2, "d", some "st"⟩]
        ⟨1, true⟩ 5).httpStatus = 200
      ∧ (get_deployed_range_endpoint
          [⟨5, "r", OpenLabsProvider.aws, 2, "d", some "st"⟩]
          ⟨1, true⟩ 5).body
        = some ⟨5, "r", OpenLabsProvider.aws, 2, "d", some "st"⟩
      ∧ (delete_range_endpoint
          [⟨5, "r", OpenLabsProvider.aws, 2, "d", some "st"⟩]
          ⟨some ⟨some "AK", some "SK", none, none, none, none⟩,
            some "arq-1", true⟩
          ⟨1, true⟩ (some "QUJDRA==") 5).httpStatus = 404
      ∧ (delete_range_endpoint
          [⟨5, "r", OpenLabsProvider.aws, 2, "d", some "st"⟩]
          ⟨some ⟨some "AK", some "SK", none, none, none, none⟩,
            some "arq-1", true⟩
          ⟨1, true⟩ (some "QUJDRA==") 5).enqueueCalled = false :=
  c4_admin_bypass_read_not_delete
    ⟨5, "r", OpenLabsProvider.aws, 2, "d", some "st"⟩ ⟨1, true⟩
    ⟨some ⟨some "AK", some "SK", none, none, none, none⟩, some "arq-1", true⟩
    "QUJDRA==" rfl (by decide) (by decide) ⟨[65, 66, 67, 68], by decide⟩

/-- C6, counterexample: the cookie value `"a"` is not
base64-decodable (one data character), and both endpoints respond
400 — not the claimed 401 — on it. -/
theorem c6_invalid_enc_key_gives_400_counterexample :
    pyB64Decode "a" = none
      ∧ (deploy_range_from_blueprint_endpoint [] ⟨none, none, true⟩
          ⟨1, false⟩ (some "a") 1).httpStatus = 400
      ∧ (delete_range_endpoint [] ⟨none, none, true⟩
          ⟨1, false⟩ (some "a") 1).httpStatus = 400 := by
  decide

/-- C6, amended: on the deploy and destroy endpoints, a *missing*
`enc_key` cookie fails with 401 and an *invalid*
(non-base64-decodable) `enc_key` cookie fails with 400; in both cases
the request fails before any job is enqueued. -/
theorem c6_enc_key_admission
    (bps : List BlueprintRangeRow) (drs : List DeployedRangeApiRow)
    (env : EndpointEnv) (u : ApiUser) (bid rid : Nat) (s : String)
    (hs : s ≠ "") (hdec : pyB64Decode s = none) :
    ((deploy_range_from_blueprint_endpoint bps env u none bid).httpStatus = 401
      ∧ (deploy_range_from_blueprint_endpoint bps env u none bid).enqueueCalled
          = false)
    ∧ ((deploy_range_from_blueprint_endpoint bps env u (some s) bid).httpStatus
          = 400
      ∧ (deploy_range_from_blueprint_endpoint bps env u (some s) bid).enqueueCalled
          = false)
    ∧ ((delete_range_endpoint drs env u none rid).httpStatus = 401
      ∧ (delete_range_endpoint drs env u none rid).enqueueCalled = false)
    ∧ ((delete_range_endpoint drs env u (some s) rid).httpStatus = 400
      ∧ (delete_range_endpoint drs env u (some s) rid).enqueueCalled = false) := by
  refine ⟨⟨?_, ?_⟩, ⟨?_, ?_⟩, ⟨?_, ?_⟩, ⟨?_, ?_⟩⟩ <;>
    simp [deploy_range_from_blueprint_endpoint, delete_range_endpoint,
      pyFalsy, hs, hdec, earlyError]

/-- C6, witness for the amended theorem with the concrete invalid
cookie `"a"`. -/
theorem c6_enc_key_admission_witness :
    ((deploy_range_from_blueprint_endpoint [] ⟨none, none, true⟩
          ⟨1, false⟩ none 1).httpStatus = 401
      ∧ (deploy_range_from_blueprint_endpoint [] ⟨none, none, true⟩
          ⟨1, false⟩ none 1).enqueueCalled = false)
    ∧ ((deploy_range_from_blueprint_endpoint [] ⟨none, none, true⟩
          ⟨1, false⟩ (some "a") 1).httpStatus = 400
      ∧ (deploy_range_from_blueprint_endpoint [] ⟨none, none, true⟩
          ⟨1, false⟩ (some "a") 1).enqueueCalled = false)
    ∧ ((delete_range_endpoint [] ⟨none, none, true⟩
          ⟨1, false⟩ none 1).httpStatus = 401
      ∧ (delete_range_endpoint [] ⟨none, none, true⟩
          ⟨1, false⟩ none 1).enqueueCalled = false)
    ∧ ((delete_range_endpoint [] ⟨none, none, true⟩
          ⟨1, false⟩ (some "a") 1).httpStatus = 400
      ∧ (delete_range_endpoint [] ⟨none, none, true⟩
          ⟨1, false⟩ (some "a") 1).enqueueCalled = false) :=
  c6_enc_key_admission [] [] ⟨none, none, true⟩ ⟨1, false⟩ 1 1 "a"
    (by decide) (by decide)

/-- C7: a deploy request whose blueprint lookup succeeds but whose
decrypted secret bundle lacks credentials for the blueprint's
provider is rejected with 422, the `detail` string names the provider
in its lowercase enum-value form, and control never reaches the
enqueue step. -/
theorem c7_missing_provider_credentials_422
    (bps : List BlueprintRangeRow) (env : EndpointEnv) (u : ApiUser)
    (bid : Nat) (s : String) (bs : List Nat) (bp : BlueprintRangeRow)
    (sec : SecretBundle)
    (hs : s ≠ "")
    (hdec : pyB64Decode s = some bs)
    (hbp : get_blueprint_range bps bid u.userId u.isAdmin = some bp)
    (hsec : env.decryptedSecrets = some sec)
    (hnos : has_secrets bp.provider sec = false) :
    (deploy_range_from_blueprint_endpoint bps env u (some s) bid).httpStatus
        = 422
      ∧ (deploy_range_from_blueprint_endpoint bps env u (some s) bid).detail
        = "No credentials found for provider: " ++ bp.provider.value
      ∧ (deploy_range_from_blueprint_endpoint bps env u (some s) bid).enqueueCalled
        = false := by
  refine ⟨?_, ?_, ?_⟩ <;>
    simp [deploy_range_from_blueprint_endpoint, pyFalsy, hs, hdec, hbp, hsec,
      hnos, earlyError, OpenLabsProvider.interpolate]

/-- C7, witness: an AWS blueprint owned by the caller and an empty
secret bundle; the response is 422 with detail
`"No credentials found for provider: aws"` and nothing enqueued. -/
theorem c7_missing_provider_credentials_witness :
    (deploy_range_from_blueprint_endpoint
          [⟨1, "r", OpenLabsProvider.aws, 7⟩]
          ⟨some ⟨none, none, none, none, none, none⟩, some "arq-1", true⟩
          ⟨7, false⟩ (some "QUJDRA==") 1).httpStatus = 422
      ∧ (deploy_range_from_blueprint_endpoint
            [⟨1, "r", OpenLabsProvider.aws, 7⟩]
            ⟨some ⟨none, none, none, none, none, none⟩, some "arq-1", true⟩
            ⟨7, false⟩ (some "QUJDRA==") 1).detail
        = "No credentials found for provider: aws"
      ∧ (deploy_range_from_blueprint_endpoint
            [⟨1, "r", OpenLabsProvider.aws, 7⟩]
            ⟨some ⟨none, none, none, none, none, none⟩, some "arq-1", true⟩
            ⟨7, false⟩ (some "QUJDRA==") 1).enqueueCalled = false := by
  have h := c7_missing_provider_credentials_422
    [⟨1, "r", OpenLabsProvider.aws, 7⟩]
    ⟨some ⟨none, none, none, none, none, none⟩, some "arq-1", true⟩
    ⟨7, false⟩ 1 "QUJDRA==" [65, 66, 67, 68]
    ⟨1, "r", OpenLabsProvider.aws, 7⟩
    ⟨none, none, none, none, none, none⟩
    (by decide) (by decide) (by decide) rfl (by decide)
  simpa [OpenLabsProvider.value] using h

/-- C8: once the admission checks pass and the queue returns a job
id, a failing Job Record insert does not fail the HTTP response —
both endpoints respond 202 carrying the queue-assigned id, with
detail `DB_SAVE_FAILURE` on insert failure and `DB_SAVE_SUCCESS` on
insert success. -/
theorem c8_db_insert_failure_does_not_fail_response
    (bps : List BlueprintRangeRow) (drs : List DeployedRangeApiRow)
    (env : EndpointEnv) (u : ApiUser) (bid rid : Nat) (s : String)
    (bs : List Nat) (bp : BlueprintRangeRow) (dr : DeployedRangeApiRow)
    (sec : SecretBundle) (jid : String)
    (hs : s ≠ "")
    (hdec : pyB64Decode s = some bs)
    (hbp : get_blueprint_range bps bid u.userId u.isAdmin = some bp)
    (hdr : get_deployed_range drs rid u.userId false = some dr)
    (hsec : env.decryptedSecrets = some sec)
    (hbps : has_secrets bp.provider sec = true)
    (hdrs : has_secrets dr.provider sec = true)
    (henq : env.enqueueResult = some jid) :
    (deploy_range_from_blueprint_endpoint bps env u (some s) bid).httpStatus
        = 202
      ∧ (deploy_range_from_blueprint_endpoint bps env u (some s) bid).arqJobId
        = some jid
      ∧ (deploy_range_from_blueprint_endpoint bps env u (some s) bid).detail
        = (if env.dbInsertOk then "DB_SAVE_SUCCESS" else "DB_SAVE_FAILURE")
      ∧ (delete_range_endpoint drs env u (some s) rid).httpStatus = 202
      ∧ (delete_range_endpoint drs env u (some s) rid).arqJobId = some jid
      ∧ (delete_range_endpoint drs env u (some s) rid).detail
        = (if env.dbInsertOk then "DB_SAVE_SUCCESS" else "DB_SAVE_FAILURE") := by
  cases hdb : env.dbInsertOk <;>
    refine ⟨?_, ?_, ?_, ?_, ?_, ?_⟩ <;>
      simp [deploy_range_from_blueprint_endpoint, delete_range_endpoint,
        enqueueAndRecord, pyFalsy, hs, hdec, hbp, hdr, hsec, hbps, hdrs, henq,
        hdb, JobSubmissionDetail.value]

/-- C8, witness: concrete deploy and destroy submissions whose
Job Record insert fails; both responses are 202 with the queue id
`"arq-9"` and detail `DB_SAVE_FAILURE`. -/
theorem c8_db_insert_failure_witness :
    (deploy_range_from_blueprint_endpoint
          [⟨1, "r", OpenLabsProvider.aws, 7⟩]
          ⟨some ⟨some "AK", some "SK", none, none, none, none⟩,
            some "arq-9", false⟩
          ⟨7, false⟩ (some "QUJDRA==") 1).httpStatus = 202
      ∧ (deploy_range_from_blueprint_endpoint
            [⟨1, "r", OpenLabsProvider.aws, 7⟩]
            ⟨some ⟨some "AK", some "SK", none, none, none, none⟩,
              some "arq-9", false⟩
            ⟨7, false⟩ (some "QUJDRA==") 1).arqJobId = some "arq-9"
      ∧ (deploy_range_from_blueprint_endpoint
            [⟨1, "r", OpenLabsProvider.aws, 7⟩]
            ⟨some ⟨some "AK", some "SK", none, none, none, none⟩,
              some "arq-9", false⟩
            ⟨7, false⟩ (some "QUJDRA==") 1).detail
        = (if (⟨some ⟨some "AK", some "SK", none, none, none, none⟩,
              some "arq-9", false⟩ : EndpointEnv).dbInsertOk
            then "DB_SAVE_SUCCESS" else "DB_SAVE_FAILURE")
      ∧ (delete_range_endpoint
            [⟨5, "r", OpenLabsProvider.aws, 7, "d", some "st"⟩]
            ⟨some ⟨some "AK", some "SK", none, none, none, none⟩,
              some "arq-9", false⟩
            ⟨7, false⟩ (some "QUJDRA==") 5).httpStatus = 202
      ∧ (delete_range_endpoint
            [⟨5, "r", OpenLabsProvider.aws, 7, "d", some "st"⟩]
            ⟨some ⟨some "AK", some "SK", none, none, none, none⟩,
              some "arq-9", false⟩
            ⟨7, false⟩ (some "QUJDRA==") 5).arqJobId = some "arq-9"
      ∧ (delete_range_endpoint
            [⟨5, "r", OpenLabsProvider.aws, 7, "d", some "st"⟩]
            ⟨some ⟨some "AK", some "SK", none, none, none, none⟩,
              some "arq-9", false⟩
            ⟨7, false⟩ (some "QUJDRA==") 5).detail
        = (if (⟨some ⟨some "AK", some "SK", none, none, none, none⟩,
              some "arq-9", false⟩ : EndpointEnv).dbInsertOk
            then "DB_SAVE_SUCCESS" else "DB_SAVE_FAILURE") :=
  c8_db_insert_failure_does_not_fail_response
    [⟨1, "r", OpenLabsProvider.aws, 7⟩]
    [⟨5, "r", OpenLabsProvider.aws, 7, "d", some "st"⟩]
    ⟨some ⟨some "AK", some "SK", none, none, none, none⟩, some "arq-9", false⟩
    ⟨7, false⟩ 1 5 "QUJDRA==" [65, 66, 67, 68]
    ⟨1, "r", OpenLabsProvider.aws, 7⟩
    ⟨5, "r", OpenLabsProvider.aws, 7, "d", some "st"⟩
    ⟨some "AK", some "SK", none, none, none, none⟩ "arq-9"
    (by decide) (by decide) (by decide) (by decide) rfl
    (by decide) (by decide) rfl

end OpenLabs
